import Mathlib

/-!
Shallow embedding of `talpid-openvpn/src/process/openvpn.rs`:
the OpenVPN argument builder (`OpenVpnCommand`) and the process
supervisor (`OpenVpnProcHandle`).

Platform note: the Rust source selects some base flags and the
firewall-mark field with conditional compilation; this development embeds
the `target_os = "linux"` configuration (so `--dev tun`, `--route-noexec`
and the `fwmark` field are present, the Windows-only entries absent).

Strings stand in for `OsString`/`PathBuf`/`IpAddr` text (the source only
ever converts those to strings when emitting tokens); `u16`/`u32` become
`Nat` since the builder only renders them in decimal.  A Rust `panic!` is
made explicit as the `BuildResult.panicked` constructor, and `log`
side effects are returned as an explicit list of events.
-/

namespace OpenVpn

/-- `talpid_types::net::TransportProtocol`. -/
inductive TransportProtocol
  | udp
  | tcp
  deriving DecidableEq, Repr

/-- A socket address, kept as its textual IP plus port, since the source
only reads `.ip().to_string()` and `.port().to_string()` from it. -/
structure SocketAddr where
  ip : String
  port : Nat
  deriving DecidableEq, Repr

/-- `talpid_types::net::Endpoint`: a socket address plus a transport protocol. -/
structure Endpoint where
  address : SocketAddr
  protocol : TransportProtocol
  deriving DecidableEq, Repr

/-- SOCKS5 authentication credentials carried by a remote proxy config.
The builder never reads the fields, only whether credentials are present. -/
structure SocksAuth where
  username : String
  password : String
  deriving DecidableEq, Repr

/-- `talpid_types::net::proxy::Socks5Local`: a local SOCKS5 forwarder. -/
structure Socks5Local where
  local_port : Nat
  remote_endpoint : Endpoint
  deriving DecidableEq, Repr

/-- `talpid_types::net::proxy::Socks5Remote`: a remote SOCKS5 proxy. -/
structure Socks5Remote where
  endpoint : SocketAddr
  auth : Option SocksAuth
  deriving DecidableEq, Repr

/-- `talpid_types::net::proxy::Shadowsocks`: the obfuscated, locally
forwarded transport; the builder reads only its remote endpoint. -/
structure Shadowsocks where
  endpoint : SocketAddr
  deriving DecidableEq, Repr

/-- `talpid_types::net::proxy::CustomProxy`. -/
inductive CustomProxy
  | socks5Local (p : Socks5Local)
  | socks5Remote (p : Socks5Remote)
  | shadowsocks (p : Shadowsocks)
  deriving DecidableEq, Repr

/-- `talpid_types::net::openvpn::TunnelOptions`: the builder only reads the
optional `mssfix` value. -/
structure TunnelOptions where
  mssfix : Option Nat
  deriving DecidableEq, Repr

/-- `OpenVpnCommand` (openvpn.rs lines 58-75), Linux configuration. -/
structure OpenVpnCommand where
  openvpn_bin : String
  config : Option String
  remote : Option Endpoint
  user_pass_path : Option String
  proxy_auth_path : Option String
  ca : Option String
  crl : Option String
  plugin : Option (String × List String)
  log : Option String
  tunnel_options : TunnelOptions
  proxy_settings : Option CustomProxy
  tunnel_alias : Option String
  enable_ipv6 : Bool
  proxy_port : Option Nat
  fwmark : Option Nat
  deriving DecidableEq, Repr

namespace OpenVpnCommand

/-- `OpenVpnCommand::new` (lines 80-99): every optional field unset,
IPv6 enabled by default. -/
def new (openvpn_bin : String) : OpenVpnCommand where
  openvpn_bin := openvpn_bin
  config := none
  remote := none
  user_pass_path := none
  proxy_auth_path := none
  ca := none
  crl := none
  plugin := none
  log := none
  tunnel_options := ⟨none⟩
  proxy_settings := none
  tunnel_alias := none
  enable_ipv6 := true
  proxy_port := none
  fwmark := none

end OpenVpnCommand

/-- `BASE_ARGUMENTS` (lines 12-50) flattened by `base_arguments`
(lines 261-269), with the Linux `cfg` branches taken. -/
def base_arguments : List String :=
  [ "--client"
  , "--tls-client"
  , "--nobind"
  , "--mute-replay-warnings"
  , "--dev", "tun"
  , "--ping", "4"
  , "--ping-exit", "25"
  , "--connect-timeout", "30"
  , "--connect-retry", "0", "0"
  , "--connect-retry-max", "1"
  , "--remote-cert-tls", "server"
  , "--rcvbuf", "1048576"
  , "--sndbuf", "1048576"
  , "--fast-io"
  , "--data-ciphers-fallback", "AES-256-GCM"
  , "--tls-version-min", "1.3"
  , "--verb", "3"
  , "--route-noexec" ]

/-- `ALLOWED_TLS1_3_CIPHERS` (lines 52-53). -/
def ALLOWED_TLS1_3_CIPHERS : List String :=
  ["TLS_AES_256_GCM_SHA384", "TLS_CHACHA20_POLY1305_SHA256"]

/-- `tls_cipher_arguments` (lines 271-276): the allowed cipher suites,
colon-joined. -/
def tls_cipher_arguments : List String :=
  ["--tls-ciphersuites", String.intercalate ":" ALLOWED_TLS1_3_CIPHERS]

/-- The severity of a `log` macro call in the embedded code. -/
inductive LogLevel
  | debug
  | warn
  | error
  deriving DecidableEq, Repr

/-- One emitted log line: severity plus message. -/
structure LogEvent where
  level : LogLevel
  msg : String
  deriving DecidableEq, Repr

/-- Outcome of running a piece of Rust code that may `panic!`: either the
value it returns, or the panic message it aborts with.  A panic is an
uncontrolled abort, distinct from any fallible (`Result`-style) error. -/
inductive BuildResult (α : Type) where
  | ok (val : α)
  | panicked (msg : String)
  deriving DecidableEq, Repr

/-- `OpenVpnCommand::remote_arguments` (lines 278-291). -/
def OpenVpnCommand.remote_arguments (c : OpenVpnCommand) : List String :=
  match c.remote with
  | none => []
  | some endpoint =>
      [ "--proto"
      , (match endpoint.protocol with
         | .udp => "udp"
         | .tcp => "tcp-client")
      , "--remote"
      , endpoint.address.ip
      , toString endpoint.address.port ]

/-- `OpenVpnCommand::authentication_arguments` (lines 293-300). -/
def OpenVpnCommand.authentication_arguments (c : OpenVpnCommand) : List String :=
  match c.user_pass_path with
  | none => []
  | some user_pass_path => ["--auth-user-pass", user_pass_path]

/-- `OpenVpnCommand::proxy_arguments` (lines 302-350).  Returns the pushed
tokens together with the log events emitted on the way; the
`panic!` on a missing dynamic proxy port (line 339) is the
`BuildResult.panicked` case. -/
def OpenVpnCommand.proxy_arguments (c : OpenVpnCommand) :
    BuildResult (List String × List LogEvent) :=
  match c.proxy_settings with
  | some (.socks5Local local_proxy) =>
      .ok
        ( [ "--socks-proxy", "127.0.0.1", toString local_proxy.local_port
          , "--route", local_proxy.remote_endpoint.address.ip
          , "255.255.255.255", "net_gateway" ]
        , [] )
  | some (.socks5Remote remote_proxy) =>
      let head := [ "--socks-proxy", remote_proxy.endpoint.ip
                  , toString remote_proxy.endpoint.port ]
      let (authTokens, logs) :=
        match remote_proxy.auth with
        | some _ =>
            match c.proxy_auth_path with
            | some auth_file => ([auth_file], ([] : List LogEvent))
            | none =>
                ([], [⟨.error, "Proxy credentials present but credentials file missing"⟩])
        | none => ([], [])
      .ok
        ( head ++ authTokens ++
            [ "--route", remote_proxy.endpoint.ip
            , "255.255.255.255", "net_gateway" ]
        , logs )
  | some (.shadowsocks ss) =>
      match c.proxy_port with
      | some proxy_port =>
          .ok
            ( [ "--socks-proxy", "127.0.0.1", toString proxy_port
              , "--route", ss.endpoint.ip, "255.255.255.255", "net_gateway" ]
            , [] )
      | none => .panicked "Dynamic proxy port was not registered with OpenVpnCommand"
  | none => .ok ([], [])

/-- `OpenVpnCommand::get_arguments` (lines 199-259), Linux configuration,
written as the same sequence of pushes the source performs; a panic inside
`proxy_arguments` aborts the whole computation, and the proxy log events are
a side effect that never reaches the argument vector. -/
def OpenVpnCommand.get_arguments (c : OpenVpnCommand) : BuildResult (List String) :=
  let args := base_arguments
  let args := args ++
    (match c.config with
     | some config => ["--config", config]
     | none => [])
  let args := args ++ c.remote_arguments
  let args := args ++ c.authentication_arguments
  let args := args ++
    (match c.ca with
     | some ca => ["--ca", ca]
     | none => [])
  let args := args ++
    (match c.crl with
     | some crl => ["--crl-verify", crl]
     | none => [])
  let args := args ++
    (match c.plugin with
     | some (path, plugin_args) => ["--plugin", path] ++ plugin_args
     | none => [])
  let args := args ++
    (match c.log with
     | some path => ["--log", path]
     | none => [])
  let args := args ++
    (match c.tunnel_options.mssfix with
     | some mssfix => ["--mssfix", toString mssfix]
     | none => [])
  let args := args ++
    (if !c.enable_ipv6 then
       [ "--pull-filter", "ignore", "route-ipv6"
       , "--pull-filter", "ignore", "ifconfig-ipv6" ]
     else [])
  let args := args ++
    (match c.tunnel_alias with
     | some tunnel_device => ["--dev-node", tunnel_device]
     | none => [])
  let args := args ++ tls_cipher_arguments
  match c.proxy_arguments with
  | .panicked msg => .panicked msg
  | .ok (proxyTokens, _) =>
      let args := args ++ proxyTokens
      let args := args ++
        (match c.fwmark with
         | some mark => ["--mark", toString mark]
         | none => [])
      .ok args

/-!
Process supervisor (`OpenVpnProcHandle`, lines 366-455).

The asynchronous runtime pieces are embedded by their observable
semantics: a `tokio::task::JoinHandle` yields its task's output exactly
once and panics with `"JoinHandle polled after completion"` when polled
again after completion (its output slot is replaced by a consumed marker
the first time it is read); a `futures::channel::oneshot::Sender` can be
consumed by at most one `send`.  The shutdown branch of the supervising
task is embedded as a function of the received signal and of how the
child process behaves, returning both the ordered list of actions the
task performed and the value the task completes with.
-/

/-- An OS exit status, opaque to the supervisor beyond equality. -/
structure ExitStatus where
  code : Int
  deriving DecidableEq, Repr

/-- An `std::io::Error`, opaque beyond equality. -/
structure IOErr where
  msg : String
  deriving DecidableEq, Repr

instance {ε α : Type} [DecidableEq ε] [DecidableEq α] : DecidableEq (Except ε α) :=
  fun a b =>
    match a, b with
    | .ok a, .ok b => decidable_of_iff (a = b) (by simp)
    | .error a, .error b => decidable_of_iff (a = b) (by simp)
    | .ok _, .error _ => .isFalse (by simp)
    | .error _, .ok _ => .isFalse (by simp)

/-- How the supervising background task finished: it ran to completion
with its `io::Result<ExitStatus>` value, or it was itself torn down
abnormally (the `JoinError` case of awaiting the handle). -/
inductive TaskOutcome
  | completed (r : Except IOErr ExitStatus)
  | aborted
  deriving DecidableEq, Repr

/-- The join handle to the supervising task: the task's outcome plus
whether that outcome has already been taken by an earlier await. -/
structure JoinState where
  outcome : TaskOutcome
  consumed : Bool
  deriving DecidableEq, Repr

/-- What one `.await` of the join handle produces. -/
inductive AwaitOutcome
  | value (r : Except IOErr ExitStatus)
  | joinError
  | panicked (msg : String)
  deriving DecidableEq, Repr

/-- Awaiting the join handle: the first await takes the task's output
(or its join error); any later await finds the output slot already
consumed and panics. -/
def joinAwait (j : JoinState) : AwaitOutcome × JoinState :=
  if j.consumed then
    (.panicked "JoinHandle polled after completion", j)
  else
    match j.outcome with
    | .completed r => (.value r, { j with consumed := true })
    | .aborted => (.joinError, { j with consumed := true })

/-- `OpenVpnProcHandle` (lines 367-370): the caller-side state, an
optional one-shot sender for the shutdown timeout plus the join handle
of the supervising task. -/
structure OpenVpnProcHandle where
  stop_tx : Option Unit
  proc : JoinState
  deriving DecidableEq, Repr

/-- What one call of `OpenVpnProcHandle::wait` produces. -/
inductive WaitOutcome
  | ok (s : ExitStatus)
  | ioErr (e : IOErr)
  | panicked (msg : String)
  deriving DecidableEq, Repr

namespace OpenVpnProcHandle

/-- `OpenVpnProcHandle::kill` (lines 445-449): take the one-shot sender
if still present and send the timeout through it (ignoring send
failures); afterwards the sender is gone, so any further call does
nothing.  Returns the new handle state and the value handed to the
channel, if any. -/
def kill (h : OpenVpnProcHandle) (timeout : Nat) :
    OpenVpnProcHandle × Option Nat :=
  match h.stop_tx with
  | some _ => ({ h with stop_tx := none }, some timeout)
  | none => (h, none)

/-- `OpenVpnProcHandle::wait` (lines 451-454): await the join handle and
`expect` the result, panicking with `"openvpn task panicked"` when the
background task was torn down abnormally. -/
def wait (h : OpenVpnProcHandle) : WaitOutcome × OpenVpnProcHandle :=
  match joinAwait h.proc with
  | (.value (.ok s), j) => (.ok s, { h with proc := j })
  | (.value (.error e), j) => (.ioErr e, { h with proc := j })
  | (.joinError, j) => (.panicked "openvpn task panicked", { h with proc := j })
  | (.panicked m, j) => (.panicked m, { h with proc := j })

end OpenVpnProcHandle

/-- One observable action of the supervising task's shutdown branch. -/
inductive Ev
  | closeStdin
  | gracefulWait
  | forceKill
  | finalWait
  deriving DecidableEq, Repr

/-- How the child process behaves during shutdown, the oracle the
shutdown branch consults: whether it exits within the graceful-wait
timeout, what `Child::kill` returns, and what the final `Child::wait`
returns. -/
structure ChildBehavior where
  exitsWithinTimeout : Bool
  killOutcome : Except IOErr Unit
  finalWaitOutcome : Except IOErr ExitStatus
  deriving DecidableEq, Repr

/-- The shutdown branch of the supervising task (lines 394-425): the
`timeout = &mut stop_rx` arm of the select.  `signal` is what the
one-shot receiver yielded: `some t` when a timeout was sent, `none` when
the sender was dropped.  The stdin handle is dropped first in either
case; with a timeout the task waits up to that long for a graceful exit
and only escalates to `kill` when the wait times out, propagating a kill
failure with `?` (which returns from the task at once); with a dropped
channel it kills immediately, ignoring kill failures.  Whenever the task
falls through, the value of the final unconditional `wait` is returned.
Returns the ordered action trace and the task's resulting value. -/
def shutdownBranch (signal : Option Nat) (b : ChildBehavior) :
    List Ev × Except IOErr ExitStatus :=
  match signal with
  | some _timeout =>
      if b.exitsWithinTimeout then
        ([.closeStdin, .gracefulWait, .finalWait], b.finalWaitOutcome)
      else
        match b.killOutcome with
        | .error e => ([.closeStdin, .gracefulWait, .forceKill], .error e)
        | .ok _ =>
            ([.closeStdin, .gracefulWait, .forceKill, .finalWait], b.finalWaitOutcome)
  | none =>
      ([.closeStdin, .forceKill, .finalWait], b.finalWaitOutcome)

/-!
Spec-side view of the argument list: the thirteen ordered sections the
specification names (base flags, config file, remote, auth, CA, CRL,
plugin, log, MTU, IPv6 filters, device alias, cipher suite, proxy,
platform extras), each as its own function of the configuration, and
their concatenation in that order.  `get_arguments` above is the
source-side push sequence; the two are compared by theorem.
-/

namespace OpenVpnCommand

/-- Section: `--config <path>` when a config file is set. -/
def config_section (c : OpenVpnCommand) : List String :=
  match c.config with
  | some config => ["--config", config]
  | none => []

/-- Section: `--ca <path>` when a CA certificate is set. -/
def ca_section (c : OpenVpnCommand) : List String :=
  match c.ca with
  | some ca => ["--ca", ca]
  | none => []

/-- Section: `--crl-verify <path>` when a revocation list is set. -/
def crl_section (c : OpenVpnCommand) : List String :=
  match c.crl with
  | some crl => ["--crl-verify", crl]
  | none => []

/-- Section: `--plugin <path> <args...>` when a plugin is set. -/
def plugin_section (c : OpenVpnCommand) : List String :=
  match c.plugin with
  | some (path, plugin_args) => ["--plugin", path] ++ plugin_args
  | none => []

/-- Section: `--log <path>` when a log file is set. -/
def log_section (c : OpenVpnCommand) : List String :=
  match c.log with
  | some path => ["--log", path]
  | none => []

/-- Section: `--mssfix <n>` when tunnel options carry an MTU value. -/
def mssfix_section (c : OpenVpnCommand) : List String :=
  match c.tunnel_options.mssfix with
  | some mssfix => ["--mssfix", toString mssfix]
  | none => []

/-- The two pull-filter directive groups emitted when IPv6 is disabled. -/
def ipv6_filter_block : List String :=
  [ "--pull-filter", "ignore", "route-ipv6"
  , "--pull-filter", "ignore", "ifconfig-ipv6" ]

/-- Section: the IPv6 pull-filter block, present exactly when the IPv6
flag is off. -/
def ipv6_filter_section (c : OpenVpnCommand) : List String :=
  if !c.enable_ipv6 then ipv6_filter_block else []

/-- Section: `--dev-node <alias>` when a device alias is set. -/
def dev_alias_section (c : OpenVpnCommand) : List String :=
  match c.tunnel_alias with
  | some tunnel_device => ["--dev-node", tunnel_device]
  | none => []

/-- Section: `--mark <n>` (Linux) when a firewall mark is set. -/
def fwmark_section (c : OpenVpnCommand) : List String :=
  match c.fwmark with
  | some mark => ["--mark", toString mark]
  | none => []

/-- The argument list assembled as the concatenation of the
specification's thirteen sections, in the spec's order, with the proxy
section's panic propagated. -/
def spec_ordered_arguments (c : OpenVpnCommand) : BuildResult (List String) :=
  match c.proxy_arguments with
  | .panicked msg => .panicked msg
  | .ok (proxyTokens, _) =>
      .ok
        (base_arguments ++ c.config_section ++ c.remote_arguments ++
          c.authentication_arguments ++ c.ca_section ++ c.crl_section ++
          c.plugin_section ++ c.log_section ++ c.mssfix_section ++
          c.ipv6_filter_section ++ c.dev_alias_section ++
          tls_cipher_arguments ++ proxyTokens ++ c.fwmark_section)

/-- The token for a transport protocol, as `remote_arguments` renders it. -/
def protoToken : TransportProtocol → String
  | .udp => "udp"
  | .tcp => "tcp-client"

/-- Whether a proxy setting is a remote SOCKS5 proxy that carries
authentication credentials — the only shape whose arguments read the
`proxy_auth_path` field. -/
def isRemoteProxyWithAuth : Option CustomProxy → Bool
  | some (.socks5Remote remote_proxy) => remote_proxy.auth.isSome
  | _ => false

/-- The sections preceding the IPv6 filter block, concatenated. -/
def pre_ipv6_sections (c : OpenVpnCommand) : List String :=
  base_arguments ++ c.config_section ++ c.remote_arguments ++
    c.authentication_arguments ++ c.ca_section ++ c.crl_section ++
    c.plugin_section ++ c.log_section ++ c.mssfix_section

/-- The sections following the IPv6 filter block, concatenated around the
given proxy tokens. -/
def post_ipv6_sections (c : OpenVpnCommand) (proxyTokens : List String) : List String :=
  c.dev_alias_section ++ tls_cipher_arguments ++ proxyTokens ++ c.fwmark_section

end OpenVpnCommand

/-!
Concrete fixtures used by the counterexample and witness theorems.
-/

/-- A configuration whose proxy is the Shadowsocks transport and whose
dynamic proxy port was never registered. -/
def cfgShadowsocksNoPort : OpenVpnCommand :=
  { OpenVpnCommand.new "openvpn" with
      proxy_settings := some (.shadowsocks ⟨⟨"198.51.100.7", 443⟩⟩) }

/-- A configuration with only a remote UDP endpoint `127.0.0.1:3333` set. -/
def cfgRemoteUdp : OpenVpnCommand :=
  { OpenVpnCommand.new "" with
      remote := some ⟨⟨"127.0.0.1", 3333⟩, .udp⟩ }

/-- The argument list `cfgRemoteUdp` builds. -/
def remoteUdpArgs : List String :=
  base_arguments ++
    ["--proto", "udp", "--remote", "127.0.0.1", "3333"] ++
    tls_cipher_arguments

/-- A configuration whose proxy is a remote SOCKS5 proxy carrying auth
credentials, with no proxy-credentials file path configured. -/
def cfgRemoteProxyAuthNoFile : OpenVpnCommand :=
  { OpenVpnCommand.new "openvpn" with
      proxy_settings :=
        some (.socks5Remote ⟨⟨"203.0.113.5", 1080⟩, some ⟨"user", "pass"⟩⟩) }

/-- A supervisor handle whose background task has completed with exit
status 0 and whose result has not yet been awaited. -/
def procHandleDone : OpenVpnProcHandle :=
  ⟨some (), ⟨.completed (.ok ⟨0⟩), false⟩⟩

/-- A child that does not exit within the graceful timeout, whose kill
attempt fails, and whose final wait would report exit status 0. -/
def killFailBehavior : ChildBehavior :=
  ⟨false, .error ⟨"kill failed"⟩, .ok ⟨0⟩⟩

end OpenVpn

/-!
Theorems.
-/

namespace OpenVpn

open OpenVpnCommand

namespace OpenVpnCommand

/-- The source's push sequence produces the spec-ordered concatenation of
sections: the two descriptions of the argument list agree on every
configuration. -/
theorem get_arguments_decomp (c : OpenVpnCommand) :
    c.get_arguments = c.spec_ordered_arguments := by
  unfold get_arguments spec_ordered_arguments
  cases h : c.proxy_arguments with
  | panicked msg => simp [h]
  | ok val =>
      cases val with
      | mk proxyTokens logs =>
          simp [h, config_section, ca_section, crl_section, plugin_section,
            log_section, mssfix_section, ipv6_filter_section, ipv6_filter_block,
            dev_alias_section, fwmark_section, List.append_assoc]

end OpenVpnCommand

/-- C1: with the Shadowsocks (obfuscated/forwarded) proxy variant and no
dynamic proxy port registered, building the arguments is not a fallible
configuration-error result: the code aborts with a panic, both in
`proxy_arguments` and through `get_arguments`.  (No malformed token list
is produced either — nothing is produced.) -/
theorem claim_C1_missing_dynamic_port_panics :
    cfgShadowsocksNoPort.proxy_arguments =
      .panicked "Dynamic proxy port was not registered with OpenVpnCommand" ∧
    cfgShadowsocksNoPort.get_arguments =
      .panicked "Dynamic proxy port was not registered with OpenVpnCommand" :=
  ⟨rfl, rfl⟩

/-- C2 counterexample: for a handle whose task completed with status 0,
the first `wait` returns the status but the second `wait` panics instead
of returning the identical status again. -/
theorem claim_C2_counterexample :
    (procHandleDone.wait).1 = .ok ⟨0⟩ ∧
    ((procHandleDone.wait).2.wait).1 =
      .panicked "JoinHandle polled after completion" ∧
    WaitOutcome.panicked "JoinHandle polled after completion" ≠
      WaitOutcome.ok ⟨0⟩ := by
  refine ⟨rfl, rfl, by decide⟩

/-- C2 (amended): for every handle whose background task has completed
with an exit status not yet awaited, the first `wait` returns that
status, and a second `wait` panics with "JoinHandle polled after
completion" rather than returning the same result: `wait` is not safe to
call twice. -/
theorem claim_C2_second_wait_panics (h : OpenVpnProcHandle) (s : ExitStatus)
    (hc : h.proc.consumed = false)
    (ho : h.proc.outcome = .completed (.ok s)) :
    (h.wait).1 = .ok s ∧
    ((h.wait).2.wait).1 = .panicked "JoinHandle polled after completion" := by
  have hw : h.wait = (.ok s, { h with proc := { h.proc with consumed := true } }) := by
    unfold OpenVpnProcHandle.wait joinAwait
    simp [hc, ho]
  rw [hw]
  exact ⟨rfl, rfl⟩

/-- C2 witness: the amended statement at the concrete completed handle. -/
theorem claim_C2_witness :
    (procHandleDone.wait).1 = .ok ⟨0⟩ ∧
    ((procHandleDone.wait).2.wait).1 =
      .panicked "JoinHandle polled after completion" :=
  claim_C2_second_wait_panics procHandleDone ⟨0⟩ rfl rfl

/-- C3 counterexample: with a timeout signal, a child that does not exit
within it and a kill that fails, the shutdown branch returns the kill
error, the final wait never happens, and the caller does not receive the
final wait's outcome. -/
theorem claim_C3_counterexample :
    shutdownBranch (some 5) killFailBehavior =
      ([.closeStdin, .gracefulWait, .forceKill], .error ⟨"kill failed"⟩) ∧
    Ev.finalWait ∉ (shutdownBranch (some 5) killFailBehavior).1 ∧
    (shutdownBranch (some 5) killFailBehavior).2 ≠
      killFailBehavior.finalWaitOutcome := by
  refine ⟨rfl, by decide, by decide⟩

/-- C3 (amended): when the graceful-wait timeout elapses, a failure of
the forceful kill is fatal to the wait: the task propagates the kill's IO
error at once (the `?` operator) and skips the final unconditional wait;
only when the kill succeeds does the final wait run, with its outcome
returned to the caller. -/
theorem claim_C3_kill_failure_skips_final_wait (t : Nat) (b : ChildBehavior)
    (hg : b.exitsWithinTimeout = false) :
    shutdownBranch (some t) b =
      match b.killOutcome with
      | .error e => ([.closeStdin, .gracefulWait, .forceKill], .error e)
      | .ok _ =>
          ([.closeStdin, .gracefulWait, .forceKill, .finalWait],
            b.finalWaitOutcome) := by
  unfold shutdownBranch
  rw [hg]
  cases b.killOutcome <;> simp

/-- C3 witness: the amended statement at the concrete failing-kill child. -/
theorem claim_C3_witness :
    shutdownBranch (some 5) killFailBehavior =
      ([.closeStdin, .gracefulWait, .forceKill], .error ⟨"kill failed"⟩) :=
  claim_C3_kill_failure_skips_final_wait 5 killFailBehavior rfl

/-- C4 counterexample: for the remote endpoint `127.0.0.1:3333/UDP`, the
built list contains the protocol token `udp`, but `udp` is not
immediately followed by the address and port: the run
`udp 127.0.0.1 3333` is not an infix of the list (the `--remote` flag
sits between the protocol token and the address). -/
theorem claim_C4_counterexample :
    cfgRemoteUdp.get_arguments = .ok remoteUdpArgs ∧
    ["udp"] <:+: remoteUdpArgs ∧
    ¬ ["udp", "127.0.0.1", "3333"] <:+: remoteUdpArgs := by
  refine ⟨rfl, by decide, by decide⟩

/-- C4 (amended): for every configuration with a remote endpoint set, the
built token list contains the contiguous run
`--proto <proto> --remote <address> <port>`: the protocol token
(`udp`/`tcp-client`), then the `--remote` flag, then the endpoint's
address and decimal port as separate adjacent tokens. -/
theorem claim_C4_remote_run (c : OpenVpnCommand) (e : Endpoint) (l : List String)
    (hr : c.remote = some e) (hl : c.get_arguments = .ok l) :
    ["--proto", protoToken e.protocol, "--remote",
      e.address.ip, toString e.address.port] <:+: l := by
  rw [c.get_arguments_decomp] at hl
  unfold OpenVpnCommand.spec_ordered_arguments at hl
  have hrm : c.remote_arguments =
      ["--proto", protoToken e.protocol, "--remote",
        e.address.ip, toString e.address.port] := by
    obtain ⟨addr, proto⟩ := e
    unfold OpenVpnCommand.remote_arguments
    rw [hr]
    cases proto <;> rfl
  cases hp : c.proxy_arguments with
  | panicked m => rw [hp] at hl; cases hl
  | ok val =>
      obtain ⟨proxyTokens, logs⟩ := val
      rw [hp] at hl
      cases hl
      rw [← hrm]
      have h1 : c.remote_arguments <:+:
          (base_arguments ++ c.config_section) ++ c.remote_arguments ++
            (c.authentication_arguments ++ c.ca_section ++ c.crl_section ++
              c.plugin_section ++ c.log_section ++ c.mssfix_section ++
              c.ipv6_filter_section ++ c.dev_alias_section ++
              tls_cipher_arguments ++ proxyTokens ++ c.fwmark_section) :=
        List.infix_append _ _ _
      simpa [List.append_assoc] using h1

/-- C4 witness: the amended run at the concrete UDP configuration. -/
theorem claim_C4_witness :
    ["--proto", "udp", "--remote", "127.0.0.1", "3333"] <:+: remoteUdpArgs :=
  claim_C4_remote_run cfgRemoteUdp ⟨⟨"127.0.0.1", 3333⟩, .udp⟩ remoteUdpArgs rfl rfl

/-- C5 counterexample: for a remote SOCKS5 proxy carrying credentials but
with no credentials file configured, the builder succeeds and omits the
credentials token, but the diagnostic it emits is error-level, not
warning-level — there is no warning-level diagnostic at all. -/
theorem claim_C5_counterexample :
    cfgRemoteProxyAuthNoFile.proxy_arguments =
      .ok ( ["--socks-proxy", "203.0.113.5", "1080",
              "--route", "203.0.113.5", "255.255.255.255", "net_gateway"]
          , [⟨.error, "Proxy credentials present but credentials file missing"⟩] ) ∧
    LogLevel.error ≠ LogLevel.warn := by
  refine ⟨rfl, by decide⟩

/-- C5 (amended): for every configuration whose proxy is a remote SOCKS5
proxy carrying auth credentials with no credentials-file path configured,
building still succeeds with valid proxy arguments and no
credentials-file token, and the diagnostic reporting the omission is
emitted at error level (not warning level). -/
theorem claim_C5_degrades_with_error_diagnostic (c : OpenVpnCommand)
    (rp : Socks5Remote) (a : SocksAuth)
    (hps : c.proxy_settings = some (.socks5Remote rp))
    (ha : rp.auth = some a)
    (hpa : c.proxy_auth_path = none) :
    c.proxy_arguments =
      .ok ( ["--socks-proxy", rp.endpoint.ip, toString rp.endpoint.port,
              "--route", rp.endpoint.ip, "255.255.255.255", "net_gateway"]
          , [⟨.error, "Proxy credentials present but credentials file missing"⟩] ) := by
  unfold OpenVpnCommand.proxy_arguments
  rw [hps]
  simp [ha, hpa]

/-- C5 witness: the amended statement at the concrete credential-less
remote-proxy configuration. -/
theorem claim_C5_witness :
    cfgRemoteProxyAuthNoFile.proxy_arguments =
      .ok ( ["--socks-proxy", "203.0.113.5", "1080",
              "--route", "203.0.113.5", "255.255.255.255", "net_gateway"]
          , [⟨.error, "Proxy credentials present but credentials file missing"⟩] ) :=
  claim_C5_degrades_with_error_diagnostic cfgRemoteProxyAuthNoFile
    ⟨⟨"203.0.113.5", 1080⟩, some ⟨"user", "pass"⟩⟩ ⟨"user", "pass"⟩ rfl rfl rfl

/-- C6: the built argument list is a pure (hence deterministic) function
of the configuration, equal to the concatenation of the specification's
sections in the fixed order: base flags, config file, remote, auth,
CA, CRL, plugin, log, MTU, IPv6 filters, device alias, cipher suite,
proxy, platform-specific extras. -/
theorem claim_C6_deterministic_section_order (c : OpenVpnCommand) :
    c.get_arguments = c.spec_ordered_arguments :=
  c.get_arguments_decomp

/-- C7: disabling IPv6 inserts exactly the two pull-filter directive
groups (`route-ipv6` and `ifconfig-ipv6`) between the MTU section and the
device-alias section — never more, never fewer — while enabling IPv6
emits no such directive and leaves the rest of the output unchanged. -/
theorem claim_C7_ipv6_filter_pairs (c : OpenVpnCommand)
    (proxyTokens : List String) (logs : List LogEvent)
    (hp : c.proxy_arguments = .ok (proxyTokens, logs)) :
    OpenVpnCommand.get_arguments { c with enable_ipv6 := false } =
      .ok (c.pre_ipv6_sections ++ ipv6_filter_block ++
            c.post_ipv6_sections proxyTokens) ∧
    OpenVpnCommand.get_arguments { c with enable_ipv6 := true } =
      .ok (c.pre_ipv6_sections ++ c.post_ipv6_sections proxyTokens) ∧
    ipv6_filter_block =
      [ "--pull-filter", "ignore", "route-ipv6"
      , "--pull-filter", "ignore", "ifconfig-ipv6" ] ∧
    ipv6_filter_block.count "--pull-filter" = 2 := by
  have hp' : ∀ b : Bool,
      OpenVpnCommand.proxy_arguments { c with enable_ipv6 := b } =
        .ok (proxyTokens, logs) := fun _ => hp
  refine ⟨?_, ?_, rfl, by decide⟩ <;>
    · rw [OpenVpnCommand.get_arguments_decomp]
      unfold OpenVpnCommand.spec_ordered_arguments
      rw [hp']
      simp [pre_ipv6_sections, post_ipv6_sections, config_section, ca_section,
        crl_section, plugin_section, log_section, mssfix_section,
        ipv6_filter_section, dev_alias_section, fwmark_section,
        OpenVpnCommand.remote_arguments, OpenVpnCommand.authentication_arguments,
        List.append_assoc]

/-- C7 witness: the statement at the concrete UDP configuration, whose
proxy section is empty. -/
theorem claim_C7_witness :
    OpenVpnCommand.get_arguments { cfgRemoteUdp with enable_ipv6 := false } =
      .ok (cfgRemoteUdp.pre_ipv6_sections ++ ipv6_filter_block ++
            cfgRemoteUdp.post_ipv6_sections []) ∧
    OpenVpnCommand.get_arguments { cfgRemoteUdp with enable_ipv6 := true } =
      .ok (cfgRemoteUdp.pre_ipv6_sections ++ cfgRemoteUdp.post_ipv6_sections []) ∧
    ipv6_filter_block =
      [ "--pull-filter", "ignore", "route-ipv6"
      , "--pull-filter", "ignore", "ifconfig-ipv6" ] ∧
    ipv6_filter_block.count "--pull-filter" = 2 :=
  claim_C7_ipv6_filter_pairs cfgRemoteUdp [] [] rfl

/-- C8: the first shutdown request takes the one-shot sender and hands
the timeout to the channel; after it the sender is gone, and every later
request sends nothing and leaves the handle unchanged, without failing. -/
theorem claim_C8_shutdown_requested_once (h : OpenVpnProcHandle) (t u : Nat)
    (hs : h.stop_tx = some ()) :
    (h.kill t).2 = some t ∧
    (h.kill t).1.stop_tx = none ∧
    ((h.kill t).1.kill u).2 = none ∧
    ((h.kill t).1.kill u).1 = (h.kill t).1 := by
  unfold OpenVpnProcHandle.kill
  rw [hs]
  exact ⟨rfl, rfl, rfl, rfl⟩

/-- C8 witness: the statement at the concrete live handle. -/
theorem claim_C8_witness :
    (procHandleDone.kill 3).2 = some 3 ∧
    (procHandleDone.kill 3).1.stop_tx = none ∧
    ((procHandleDone.kill 3).1.kill 7).2 = none ∧
    ((procHandleDone.kill 3).1.kill 7).1 = (procHandleDone.kill 3).1 :=
  claim_C8_shutdown_requested_once procHandleDone 3 7 rfl

/-- C9: in every execution of the shutdown branch the stdin close is the
first action (so it precedes any forceful kill), every forceful kill
precedes every final wait, whenever a final wait happens its outcome is
what the task returns, and a dropped signal channel yields exactly
close-kill-wait — an immediate kill with no graceful grace period. -/
theorem claim_C9_shutdown_order (signal : Option Nat) (b : ChildBehavior) :
    ((shutdownBranch signal b).1).head? = some Ev.closeStdin ∧
    (∀ i < (shutdownBranch signal b).1.length,
      (shutdownBranch signal b).1.getD i .closeStdin = Ev.forceKill → 0 < i) ∧
    (∀ i < (shutdownBranch signal b).1.length,
      ∀ j < (shutdownBranch signal b).1.length,
        (shutdownBranch signal b).1.getD i .closeStdin = Ev.forceKill →
        (shutdownBranch signal b).1.getD j .closeStdin = Ev.finalWait →
        i < j) ∧
    (Ev.finalWait ∈ (shutdownBranch signal b).1 →
      (shutdownBranch signal b).2 = b.finalWaitOutcome) ∧
    (signal = none →
      shutdownBranch signal b =
        ([Ev.closeStdin, Ev.forceKill, Ev.finalWait], b.finalWaitOutcome) ∧
      Ev.gracefulWait ∉ (shutdownBranch signal b).1) := by
  cases signal with
  | none =>
      have h2 : (shutdownBranch none b).1 =
          [Ev.closeStdin, Ev.forceKill, Ev.finalWait] := rfl
      rw [h2]
      exact ⟨rfl, by decide, by decide, fun _ => rfl, fun _ => ⟨rfl, by decide⟩⟩
  | some t =>
      cases hbe : b.exitsWithinTimeout with
      | true =>
          have h2 : (shutdownBranch (some t) b).1 =
              [Ev.closeStdin, Ev.gracefulWait, Ev.finalWait] := by
            simp [shutdownBranch, hbe]
          have h3 : (shutdownBranch (some t) b).2 = b.finalWaitOutcome := by
            simp [shutdownBranch, hbe]
          rw [h2]
          exact ⟨rfl, by decide, by decide, fun _ => h3,
            fun hs => Option.noConfusion hs⟩
      | false =>
          cases hbk : b.killOutcome with
          | error e =>
              have h2 : (shutdownBranch (some t) b).1 =
                  [Ev.closeStdin, Ev.gracefulWait, Ev.forceKill] := by
                simp [shutdownBranch, hbe, hbk]
              rw [h2]
              exact ⟨rfl, by decide, by decide, fun hm => absurd hm (by decide),
                fun hs => Option.noConfusion hs⟩
          | ok u =>
              have h2 : (shutdownBranch (some t) b).1 =
                  [Ev.closeStdin, Ev.gracefulWait, Ev.forceKill, Ev.finalWait] := by
                simp [shutdownBranch, hbe, hbk]
              have h3 : (shutdownBranch (some t) b).2 = b.finalWaitOutcome := by
                simp [shutdownBranch, hbe, hbk]
              rw [h2]
              exact ⟨rfl, by decide, by decide, fun _ => h3,
                fun hs => Option.noConfusion hs⟩

/-- C9 witness: the dropped-channel clause at a concrete child. -/
theorem claim_C9_witness :
    shutdownBranch none killFailBehavior =
      ([Ev.closeStdin, Ev.forceKill, Ev.finalWait],
        killFailBehavior.finalWaitOutcome) ∧
    Ev.gracefulWait ∉ (shutdownBranch none killFailBehavior).1 :=
  (claim_C9_shutdown_order none killFailBehavior).2.2.2.2 rfl

/-- The proxy arguments read the `proxy_auth_path` field only when the
proxy is a remote SOCKS5 proxy carrying credentials. -/
theorem proxy_arguments_auth_path_frame (c : OpenVpnCommand) (p q : Option String)
    (hnot : isRemoteProxyWithAuth c.proxy_settings = false) :
    OpenVpnCommand.proxy_arguments { c with proxy_auth_path := p } =
      OpenVpnCommand.proxy_arguments { c with proxy_auth_path := q } := by
  obtain ⟨bin, cfg, rem, upp, pap, hca, hcrl, plg, lg, topts, ps, ta, e6, pp, fm⟩ := c
  cases ps with
  | none => rfl
  | some cp =>
      cases cp with
      | socks5Local lp => rfl
      | shadowsocks ss => rfl
      | socks5Remote rp =>
          simp only [isRemoteProxyWithAuth] at hnot
          cases ha : rp.auth with
          | none => simp [OpenVpnCommand.proxy_arguments, ha]
          | some a => rw [ha] at hnot; simp at hnot

/-- C10: for every configuration whose proxy is not a remote SOCKS5 proxy
carrying credentials (no proxy, local forwarder, Shadowsocks, or remote
proxy without auth), the built argument list does not depend on the
`proxy_auth_path` field at all. -/
theorem claim_C10_proxy_auth_path_frame (c : OpenVpnCommand) (p q : Option String)
    (hnot : isRemoteProxyWithAuth c.proxy_settings = false) :
    OpenVpnCommand.get_arguments { c with proxy_auth_path := p } =
      OpenVpnCommand.get_arguments { c with proxy_auth_path := q } := by
  rw [OpenVpnCommand.get_arguments_decomp, OpenVpnCommand.get_arguments_decomp]
  unfold OpenVpnCommand.spec_ordered_arguments
  rw [proxy_arguments_auth_path_frame c p q hnot]
  rfl

/-- C10 witness: at the proxy-less UDP configuration, setting or clearing
the proxy-credentials file path leaves the output identical. -/
theorem claim_C10_witness :
    OpenVpnCommand.get_arguments { cfgRemoteUdp with proxy_auth_path := some "/p/creds" } =
      OpenVpnCommand.get_arguments { cfgRemoteUdp with proxy_auth_path := none } :=
  claim_C10_proxy_auth_path_frame cfgRemoteUdp (some "/p/creds") none rfl

end OpenVpn
